import Mathlib

/-!
Verification of the multi-signature wallet contract
(`src/multisign/contracts/multi-sign/src/lib.rs`).

Shallow embedding conventions:
* `Address` is `Nat` (soroban `Address` values are opaque identities with
  decidable equality).
* `u32` fields are `Nat` with explicit checked arithmetic against
  `U32_MAX` where the source uses `checked_add`.
* `i128` amounts are `Int`; the source only compares amounts to zero and
  passes them through, so no 128-bit wrap is involved.
* soroban persistent storage is an explicit record of association lists;
  `assocGet` / `assocSet` mirror `get` / `set` on a keyed store.
* `caller.require_auth()` aborts before any state is read or written when
  authentication fails; the theorems therefore quantify over authenticated
  callers, and the embedding starts at the first post-auth statement.
* The external `token_client.try_transfer` call is an oracle: its outcome
  is the `transferOk : Bool` parameter of `execute_transaction`, and the
  embedding also returns the persisted state at the moment the transfer is
  invoked (`none` when the call never reaches the transfer).
-/

abbrev Address : Type := Nat

instance {ε α : Type} [DecidableEq ε] [DecidableEq α] :
    DecidableEq (Except ε α) := fun x y =>
  match x, y with
  | .ok a, .ok b =>
      if h : a = b then .isTrue (by rw [h]) else .isFalse (by simp [h])
  | .ok _, .error _ => .isFalse (by simp)
  | .error _, .ok _ => .isFalse (by simp)
  | .error e, .error f =>
      if h : e = f then .isTrue (by rw [h]) else .isFalse (by simp [h])

def U32_MAX : Nat := 4294967295

/-- `u32::checked_add` for counters stored as `Nat`. -/
def checkedAddU32 (a b : Nat) : Option Nat :=
  if a + b ≤ U32_MAX then some (a + b) else none

inductive MultisigError : Type
  | Unauthorized
  | InvalidThreshold
  | TransactionNotFound
  | TransactionExecuted
  | AlreadyApproved
  | InsufficientApprovals
  | InvalidOwner
  | ArithmeticError
  | DuplicateOwner
  | AlreadyInitialized
  | InvalidAmount
  | InvalidAddress
  | TokenTransferFailed
deriving DecidableEq

/-- `Transaction` record (`data` is an opaque 32-byte payload, modelled as a
`Nat` tag since the contract never inspects it). -/
structure Transaction : Type where
  -- field named `to` in the source; `to` is a Lean keyword
  toAddr : Address
  amount : Int
  token : Address
  data : Nat
  executed : Bool
  approvals : Nat
  submitter : Address
deriving DecidableEq

structure MultisigConfig : Type where
  owners : List Address
  required_approvals : Nat
  transaction_count : Nat
deriving DecidableEq

/-- The persistent store: the `config` singleton, the `(TX_KEY, id)` map and
the `(APPROVAL_KEY, id)` map. -/
structure StoreState : Type where
  config : Option MultisigConfig
  txs : List (Nat × Transaction)
  appr : List (Nat × List Address)
deriving DecidableEq

def emptyState : StoreState := ⟨none, [], []⟩

def assocGet {α : Type} : List (Nat × α) → Nat → Option α
  | [], _ => none
  | (k, v) :: rest, k' => if k = k' then some v else assocGet rest k'

def assocSet {α : Type} : List (Nat × α) → Nat → α → List (Nat × α)
  | [], k, v => [(k, v)]
  | (k0, v0) :: rest, k, v =>
      if k0 = k then (k, v) :: rest else (k0, v0) :: assocSet rest k v

/-- The duplicate scan of `initialize`: walking `owners` with a `seen` set
fails iff some element occurs again later in the list. -/
def hasDuplicate : List Address → Bool
  | [] => false
  | a :: rest => rest.contains a || hasDuplicate rest

-- models `initialize` from the source; `initialize` is a Lean keyword
def initContract (st : StoreState) (owners : List Address)
    (required_approvals : Nat) : Except MultisigError Unit × StoreState :=
  match st.config with
  | some _ => (.error .AlreadyInitialized, st)
  | none =>
    if owners.isEmpty then (.error .InvalidOwner, st)
    else if required_approvals = 0 ∨ required_approvals > owners.length then
      (.error .InvalidThreshold, st)
    else if hasDuplicate owners then (.error .DuplicateOwner, st)
    else (.ok (),
      { st with config := some ⟨owners, required_approvals, 0⟩ })

def verify_owner (st : StoreState) (caller : Address) :
    Except MultisigError Unit :=
  match st.config with
  | none => .error .Unauthorized
  | some config =>
      if config.owners.contains caller then .ok ()
      else .error .Unauthorized

def get_config (st : StoreState) : Except MultisigError MultisigConfig :=
  match st.config with
  | none => .error .Unauthorized
  | some config => .ok config

def validate_transaction_inputs (amount : Int) : Except MultisigError Unit :=
  if amount ≤ 0 then .error .InvalidAmount else .ok ()

def submit_transaction (st : StoreState) (caller toAddr : Address) (amount : Int)
    (token : Address) (data : Nat) : Except MultisigError Nat × StoreState :=
  match verify_owner st caller with
  | .error e => (.error e, st)
  | .ok _ =>
    match validate_transaction_inputs amount with
    | .error e => (.error e, st)
    | .ok _ =>
      match get_config st with
      | .error e => (.error e, st)
      | .ok config =>
        match checkedAddU32 config.transaction_count 1 with
        | none => (.error .ArithmeticError, st)
        | some new_count =>
          let transaction : Transaction :=
            ⟨toAddr, amount, token, data, false, 1, caller⟩
          let st1 :=
            { st with config := some { config with transaction_count := new_count } }
          let st2 := { st1 with txs := assocSet st1.txs new_count transaction }
          let st3 := { st2 with appr := assocSet st2.appr new_count [caller] }
          (.ok new_count, st3)

def approve_transaction (st : StoreState) (caller : Address)
    (transaction_id : Nat) : Except MultisigError Unit × StoreState :=
  match verify_owner st caller with
  | .error e => (.error e, st)
  | .ok _ =>
    match assocGet st.txs transaction_id with
    | none => (.error .TransactionNotFound, st)
    | some transaction =>
      if transaction.executed then (.error .TransactionExecuted, st)
      else
        let approvals := (assocGet st.appr transaction_id).getD []
        if approvals.contains caller then (.error .AlreadyApproved, st)
        else
          match checkedAddU32 transaction.approvals 1 with
          | none => (.error .ArithmeticError, st)
          | some new_approvals =>
            let txBumped := { transaction with approvals := new_approvals }
            let st1 :=
              { st with txs := assocSet st.txs transaction_id txBumped }
            let approvals2 := approvals ++ [caller]
            let st2 :=
              { st1 with appr := assocSet st1.appr transaction_id approvals2 }
            (.ok (), st2)

/-- `execute_transaction`.  `transferOk` is the outcome of the external
`try_transfer` call.  The third component records the persisted state at the
moment the transfer primitive is invoked (`none` if it never is), so the
effect ordering of the source — flag flipped and persisted, then transfer,
then rollback on failure — is visible to the theorems. -/
def execute_transaction (st : StoreState) (caller : Address)
    (transaction_id : Nat) (transferOk : Bool) :
    Except MultisigError Unit × StoreState × Option StoreState :=
  match verify_owner st caller with
  | .error e => (.error e, st, none)
  | .ok _ =>
    match assocGet st.txs transaction_id with
    | none => (.error .TransactionNotFound, st, none)
    | some transaction =>
      if transaction.executed then (.error .TransactionExecuted, st, none)
      else
        match get_config st with
        | .error e => (.error e, st, none)
        | .ok config =>
          if transaction.approvals < config.required_approvals then
            (.error .InsufficientApprovals, st, none)
          else
            let txFlagged := { transaction with executed := true }
            let st1 := { st with txs := assocSet st.txs transaction_id txFlagged }
            if transferOk then (.ok (), st1, some st1)
            else
              let txRolled := { txFlagged with executed := false }
              let st2 :=
                { st1 with txs := assocSet st1.txs transaction_id txRolled }
              (.error .TokenTransferFailed, st2, some st1)

def get_transaction (st : StoreState) (caller : Address)
    (transaction_id : Nat) : Except MultisigError Transaction :=
  match verify_owner st caller with
  | .error e => .error e
  | .ok _ =>
    match assocGet st.txs transaction_id with
    | none => .error .TransactionNotFound
    | some transaction => .ok transaction

def is_owner (st : StoreState) (address : Address) :
    Except MultisigError Bool :=
  match get_config st with
  | .error e => .error e
  | .ok config => .ok (config.owners.contains address)

def get_approvals (st : StoreState) (caller : Address)
    (transaction_id : Nat) : Except MultisigError (List Address) :=
  match verify_owner st caller with
  | .error e => .error e
  | .ok _ =>
    match assocGet st.appr transaction_id with
    | none => .error .TransactionNotFound
    | some approvals => .ok approvals

/-! ### Reachability and the approval-set invariant -/

/-- States reachable from the uninitialized store through the contract's
public entry points (with arbitrary authenticated callers, arguments and
transfer outcomes). -/
inductive Reachable : StoreState → Prop
  | empty : Reachable emptyState
  | step_init (st : StoreState) (o : List Address) (r : Nat) :
      Reachable st → Reachable (initContract st o r).2
  | step_submit (st : StoreState) (c t : Address) (a : Int) (tok : Address)
      (d : Nat) : Reachable st → Reachable (submit_transaction st c t a tok d).2
  | step_approve (st : StoreState) (c : Address) (id : Nat) :
      Reachable st → Reachable (approve_transaction st c id).2
  | step_execute (st : StoreState) (c : Address) (id : Nat) (ok : Bool) :
      Reachable st → Reachable (execute_transaction st c id ok).2.1

/-- For every stored transaction, an approval set is stored, its length is
the transaction's `approvals` counter, and its entries are distinct. -/
def ApprovalInv (st : StoreState) : Prop :=
  ∀ id tx, assocGet st.txs id = some tx →
    ∃ s, assocGet st.appr id = some s ∧
      s.length = tx.approvals ∧ s.Nodup

/-! ### Concrete scenario states used by the closed theorems -/

/-- Initialized wallet: owners `[1, 2, 3]`, threshold 2. -/
def stI : StoreState := (initContract emptyState [1, 2, 3] 2).2

/-- Owner 1 submitted transaction 1 (to 10, amount 5, token 7, data 0). -/
def stS : StoreState := (submit_transaction stI 1 10 5 7 0).2

/-- Owner 2 approved transaction 1, reaching the threshold. -/
def stA : StoreState := (approve_transaction stS 2 1).2

/-- The persisted state at the moment the external transfer runs during
owner 3's `execute_transaction` of transaction 1. -/
def stT : StoreState := ((execute_transaction stA 3 1 true).2.2).getD emptyState

/-- A configured wallet whose transaction counter sits at `u32::MAX`. -/
def stMax : StoreState := ⟨some ⟨[1], 1, U32_MAX⟩, [], []⟩

/-! ### Association-list lemmas -/

theorem assocGet_assocSet_same {α : Type} (l : List (Nat × α)) (k : Nat)
    (v : α) : assocGet (assocSet l k v) k = some v := by
  induction l with
  | nil => simp [assocSet, assocGet]
  | cons p rest ih =>
    obtain ⟨k0, v0⟩ := p
    by_cases h : k0 = k
    · simp [assocSet, h, assocGet]
    · simp [assocSet, h, assocGet, ih]

theorem assocGet_assocSet_other {α : Type} (l : List (Nat × α)) (k k' : Nat)
    (v : α) (h : k ≠ k') :
    assocGet (assocSet l k v) k' = assocGet l k' := by
  induction l with
  | nil => simp [assocSet, assocGet, h]
  | cons p rest ih =>
    obtain ⟨k0, v0⟩ := p
    by_cases h0 : k0 = k
    · subst h0
      simp [assocSet, assocGet, h]
    · by_cases h1 : k0 = k'
      · simp [assocSet, assocGet, h0, h1, Ne.symm h]
      · simp [assocSet, assocGet, h0, h1, ih]

theorem assocSet_assocSet_same {α : Type} (l : List (Nat × α)) (k : Nat)
    (v1 v2 : α) : assocSet (assocSet l k v1) k v2 = assocSet l k v2 := by
  induction l with
  | nil => simp [assocSet]
  | cons p rest ih =>
    obtain ⟨k0, v0⟩ := p
    by_cases h : k0 = k
    · simp [assocSet, h]
    · simp [assocSet, h, ih]

/-! ### Basic facts about the owner gate -/

theorem verify_owner_ok {st : StoreState} {config : MultisigConfig}
    {caller : Address} (hcfg : st.config = some config)
    (hown : config.owners.contains caller = true) :
    verify_owner st caller = .ok () := by
  have hmem : caller ∈ config.owners := by simpa using hown
  unfold verify_owner
  rw [hcfg]
  simp [hmem]

theorem verify_owner_not_owner {st : StoreState} {config : MultisigConfig}
    {caller : Address} (hcfg : st.config = some config)
    (hown : config.owners.contains caller = false) :
    verify_owner st caller = .error .Unauthorized := by
  have hmem : caller ∉ config.owners := by simpa using hown
  unfold verify_owner
  rw [hcfg]
  simp [hmem]

theorem verify_owner_cases (st : StoreState) (caller : Address) :
    verify_owner st caller = .ok () ∨
    verify_owner st caller = .error .Unauthorized := by
  unfold verify_owner
  cases st.config with
  | none => simp
  | some config =>
    by_cases h : caller ∈ config.owners
    · left
      simp [h]
    · right
      simp [h]

/-! ### Shape of the state after each operation -/

theorem initContract_fields (st : StoreState) (o : List Address) (r : Nat) :
    (initContract st o r).2.txs = st.txs ∧
    (initContract st o r).2.appr = st.appr := by
  unfold initContract
  split
  · exact ⟨rfl, rfl⟩
  · split
    · exact ⟨rfl, rfl⟩
    · split
      · exact ⟨rfl, rfl⟩
      · split
        · exact ⟨rfl, rfl⟩
        · exact ⟨rfl, rfl⟩

theorem submit_shape (st : StoreState) (c t : Address) (a : Int)
    (tok : Address) (d : Nat) :
    (submit_transaction st c t a tok d).2 = st ∨
    ∃ new_count,
      (submit_transaction st c t a tok d).2.txs =
        assocSet st.txs new_count ⟨t, a, tok, d, false, 1, c⟩ ∧
      (submit_transaction st c t a tok d).2.appr =
        assocSet st.appr new_count [c] := by
  unfold submit_transaction
  split
  · exact .inl rfl
  · split
    · exact .inl rfl
    · split
      · exact .inl rfl
      · split
        · exact .inl rfl
        · rename_i config new_count heq
          exact .inr ⟨new_count, rfl, rfl⟩

theorem approve_shape (st : StoreState) (c : Address) (id : Nat) :
    (approve_transaction st c id).2 = st ∨
    ∃ tx, assocGet st.txs id = some tx ∧ tx.executed = false ∧
      ((assocGet st.appr id).getD []).contains c = false ∧
      (approve_transaction st c id).2.txs =
        assocSet st.txs id { tx with approvals := tx.approvals + 1 } ∧
      (approve_transaction st c id).2.appr =
        assocSet st.appr id (((assocGet st.appr id).getD []) ++ [c]) := by
  unfold approve_transaction
  split
  · exact .inl rfl
  · split
    · exact .inl rfl
    · rename_i tx htx
      split
      · exact .inl rfl
      · rename_i hexec
        split
        · dsimp only
          split
          · exact .inl rfl
          · exact .inl rfl
        · rename_i new_approvals heq
          dsimp only
          split
          · exact .inl rfl
          · rename_i hmem
            have hstep : new_approvals = tx.approvals + 1 := by
              unfold checkedAddU32 at heq
              split at heq
              · exact (Option.some.injEq _ _ ▸ heq).symm
              · exact absurd heq (by simp)
            subst hstep
            refine .inr ⟨tx, htx, ?_, ?_, rfl, rfl⟩
            · simpa using hexec
            · simpa using hmem

theorem execute_shape (st : StoreState) (c : Address) (id : Nat) (ok : Bool) :
    (execute_transaction st c id ok).2.1 = st ∨
    ∃ tx, assocGet st.txs id = some tx ∧ tx.executed = false ∧
      ((execute_transaction st c id ok).2.1.txs =
          assocSet st.txs id { tx with executed := true } ∨
       (execute_transaction st c id ok).2.1.txs =
          assocSet st.txs id { tx with executed := false }) ∧
      (execute_transaction st c id ok).2.1.appr = st.appr := by
  unfold execute_transaction
  split
  · exact .inl rfl
  · split
    · exact .inl rfl
    · rename_i tx htx
      split
      · exact .inl rfl
      · rename_i hexec
        split
        · exact .inl rfl
        · split
          · exact .inl rfl
          · split
            · refine .inr ⟨tx, htx, by simpa using hexec, .inl rfl, rfl⟩
            · refine .inr ⟨tx, htx, by simpa using hexec, .inr ?_, rfl⟩
              show assocSet (assocSet st.txs id _) id _ = _
              rw [assocSet_assocSet_same]

/-! ### Preservation of the approval-set invariant -/

theorem approvalInv_empty : ApprovalInv emptyState := by
  intro id tx hget
  simp [emptyState, assocGet] at hget

theorem approvalInv_initContract (st : StoreState) (o : List Address)
    (r : Nat) (h : ApprovalInv st) : ApprovalInv (initContract st o r).2 := by
  obtain ⟨h1, h2⟩ := initContract_fields st o r
  intro id tx hget
  rw [h1] at hget
  rw [h2]
  exact h id tx hget

theorem approvalInv_submit (st : StoreState) (c t : Address) (a : Int)
    (tok : Address) (d : Nat) (h : ApprovalInv st) :
    ApprovalInv (submit_transaction st c t a tok d).2 := by
  rcases submit_shape st c t a tok d with heq | ⟨nc, h1, h2⟩
  · rw [heq]
    exact h
  · intro id tx hget
    rw [h1] at hget
    rw [h2]
    by_cases hid : nc = id
    · subst hid
      rw [assocGet_assocSet_same] at hget
      injection hget with hget
      subst hget
      exact ⟨[c], assocGet_assocSet_same _ _ _, rfl, by simp⟩
    · rw [assocGet_assocSet_other _ _ _ _ hid] at hget
      obtain ⟨s, hs, hlen, hnd⟩ := h id tx hget
      exact ⟨s, by rw [assocGet_assocSet_other _ _ _ _ hid]; exact hs, hlen, hnd⟩

theorem approvalInv_approve (st : StoreState) (c : Address) (id : Nat)
    (h : ApprovalInv st) : ApprovalInv (approve_transaction st c id).2 := by
  rcases approve_shape st c id with heq | ⟨tx, htx, _, hmem, h1, h2⟩
  · rw [heq]
    exact h
  · intro id2 tx2 hget
    rw [h1] at hget
    rw [h2]
    obtain ⟨s, hs, hlen, hnd⟩ := h id tx htx
    have hgetD : (assocGet st.appr id).getD [] = s := by rw [hs]; rfl
    by_cases hid : id = id2
    · subst hid
      rw [assocGet_assocSet_same] at hget
      injection hget with hget
      subst hget
      refine ⟨s ++ [c], by rw [hgetD]; exact assocGet_assocSet_same _ _ _, ?_, ?_⟩
      · simp [hlen]
      · have hcmem : c ∉ s := by
          rw [hgetD] at hmem
          simpa using hmem
        simp [List.nodup_append, hnd, hcmem]
    · rw [assocGet_assocSet_other _ _ _ _ hid] at hget
      obtain ⟨s2, hs2, hlen2, hnd2⟩ := h id2 tx2 hget
      exact ⟨s2, by rw [assocGet_assocSet_other _ _ _ _ hid]; exact hs2, hlen2, hnd2⟩

theorem approvalInv_execute (st : StoreState) (c : Address) (id : Nat)
    (ok : Bool) (h : ApprovalInv st) :
    ApprovalInv (execute_transaction st c id ok).2.1 := by
  rcases execute_shape st c id ok with heq | ⟨tx, htx, _, h1, h2⟩
  · rw [heq]
    exact h
  · intro id2 tx2 hget
    rw [h2]
    obtain ⟨s, hs, hlen, hnd⟩ := h id tx htx
    by_cases hid : id = id2
    · subst hid
      rcases h1 with h1 | h1 <;> rw [h1, assocGet_assocSet_same] at hget <;>
        injection hget with hget <;> subst hget <;> exact ⟨s, hs, hlen, hnd⟩
    · rcases h1 with h1 | h1 <;> rw [h1, assocGet_assocSet_other _ _ _ _ hid] at hget <;>
        exact h id2 tx2 hget

theorem approvalInv_reachable (st : StoreState) (h : Reachable st) :
    ApprovalInv st := by
  induction h with
  | empty => exact approvalInv_empty
  | step_init st o r _ ih => exact approvalInv_initContract st o r ih
  | step_submit st c t a tok d _ ih => exact approvalInv_submit st c t a tok d ih
  | step_approve st c id _ ih => exact approvalInv_approve st c id ih
  | step_execute st c id ok _ ih => exact approvalInv_execute st c id ok ih

/-! ### Reduction lemmas for the entry points -/

theorem submit_transaction_run (st : StoreState) (caller t : Address)
    (amount : Int) (token : Address) (d : Nat) (config : MultisigConfig)
    (hcfg : st.config = some config)
    (hown : config.owners.contains caller = true)
    (hamt : 0 < amount)
    (hcount : config.transaction_count < U32_MAX) :
    submit_transaction st caller t amount token d =
      (.ok (config.transaction_count + 1),
       { st with
          config := some { config with
            transaction_count := config.transaction_count + 1 },
          txs := assocSet st.txs (config.transaction_count + 1)
            ⟨t, amount, token, d, false, 1, caller⟩,
          appr := assocSet st.appr (config.transaction_count + 1) [caller] }) := by
  have hv := verify_owner_ok hcfg hown
  have hval : validate_transaction_inputs amount = .ok () := by
    unfold validate_transaction_inputs
    rw [if_neg (not_le.mpr hamt)]
  have hcc : checkedAddU32 config.transaction_count 1
      = some (config.transaction_count + 1) := by
    unfold checkedAddU32
    have h1 : config.transaction_count + 1 ≤ U32_MAX := hcount
    rw [if_pos h1]
  simp [submit_transaction, hv, hval, get_config, hcfg, hcc]

theorem execute_transaction_run (st : StoreState) (caller : Address)
    (id : Nat) (ok : Bool) (config : MultisigConfig) (tx : Transaction)
    (hcfg : st.config = some config)
    (hown : config.owners.contains caller = true)
    (htx : assocGet st.txs id = some tx)
    (hexec : tx.executed = false)
    (hq : ¬ tx.approvals < config.required_approvals) :
    execute_transaction st caller id ok =
      ((if ok then .ok () else .error .TokenTransferFailed),
       (if ok then { st with txs := assocSet st.txs id { tx with executed := true } }
        else { st with txs := assocSet st.txs id { tx with executed := false } }),
       some { st with txs := assocSet st.txs id { tx with executed := true } }) := by
  have hv := verify_owner_ok hcfg hown
  cases ok
  · simp [execute_transaction, hv, htx, hexec, get_config, hcfg, hq,
      assocSet_assocSet_same]
  · simp [execute_transaction, hv, htx, hexec, get_config, hcfg, hq]

theorem execute_not_executed_error (st : StoreState) (caller : Address)
    (id : Nat) (ok : Bool)
    (h : ∀ tx, assocGet st.txs id = some tx → tx.executed = false) :
    (execute_transaction st caller id ok).1 ≠ .error .TransactionExecuted := by
  rcases verify_owner_cases st caller with hv | hv
  · cases htx : assocGet st.txs id with
    | none => simp [execute_transaction, hv, htx]
    | some tx =>
      have hexec := h tx htx
      cases hcfg : st.config with
      | none => simp [execute_transaction, hv, htx, hexec, get_config, hcfg]
      | some config =>
        by_cases hq : tx.approvals < config.required_approvals
        · simp [execute_transaction, hv, htx, hexec, get_config, hcfg, hq]
        · cases ok <;>
            simp [execute_transaction, hv, htx, hexec, get_config, hcfg, hq]
  · simp [execute_transaction, hv]

theorem execute_transfer_state (st : StoreState) (caller : Address)
    (id : Nat) (ok : Bool) (stT : StoreState)
    (hT : (execute_transaction st caller id ok).2.2 = some stT) :
    ∃ tx, assocGet st.txs id = some tx ∧ tx.executed = false ∧
      stT = { st with txs := assocSet st.txs id { tx with executed := true } } := by
  unfold execute_transaction at hT
  split at hT
  · exact absurd hT (by simp)
  · split at hT
    · exact absurd hT (by simp)
    · rename_i tx htx
      split at hT
      · exact absurd hT (by simp)
      · rename_i hexec
        split at hT
        · exact absurd hT (by simp)
        · split at hT
          · exact absurd hT (by simp)
          · dsimp only at hT
            split at hT
            · refine ⟨tx, htx, by simpa using hexec, ?_⟩
              simpa using hT.symm
            · refine ⟨tx, htx, by simpa using hexec, ?_⟩
              simpa using hT.symm

theorem reentrant_calls_blocked (s : StoreState) (c : Address) (id : Nat)
    (ok : Bool) (tx : Transaction) (htx : assocGet s.txs id = some tx)
    (hexec : tx.executed = true) :
    approve_transaction s c id =
      (.error (if verify_owner s c = .ok () then .TransactionExecuted
               else .Unauthorized), s) ∧
    execute_transaction s c id ok =
      (.error (if verify_owner s c = .ok () then .TransactionExecuted
               else .Unauthorized), s, none) := by
  rcases verify_owner_cases s c with hv | hv
  · simp [approve_transaction, execute_transaction, hv, htx, hexec]
  · simp [approve_transaction, execute_transaction, hv]

/-! ### Claim theorems -/

/-- C1: if `execute_transaction` passes the owner, existence,
not-yet-executed and quorum checks but the external token transfer fails,
the call returns `TokenTransferFailed`, the stored transaction's `executed`
flag is `false` afterward, and a later `execute_transaction` on the same id
(by any caller, with any transfer outcome) is not rejected with
`TransactionExecuted`. -/
theorem C1_transfer_failure_rollback_retryable (st : StoreState)
    (caller : Address) (id : Nat) (config : MultisigConfig) (tx : Transaction)
    (caller2 : Address) (ok2 : Bool)
    (hcfg : st.config = some config)
    (hown : config.owners.contains caller = true)
    (htx : assocGet st.txs id = some tx)
    (hexec : tx.executed = false)
    (hq : ¬ tx.approvals < config.required_approvals) :
    (execute_transaction st caller id false).1 = .error .TokenTransferFailed ∧
    assocGet (execute_transaction st caller id false).2.1.txs id =
      some { tx with executed := false } ∧
    (execute_transaction (execute_transaction st caller id false).2.1
        caller2 id ok2).1 ≠ .error .TransactionExecuted := by
  have hrun :=
    execute_transaction_run st caller id false config tx hcfg hown htx hexec hq
  have h1 : (execute_transaction st caller id false).1
      = .error .TokenTransferFailed := by
    rw [hrun]
    rfl
  have h2 : (execute_transaction st caller id false).2.1
      = { st with txs := assocSet st.txs id { tx with executed := false } } := by
    rw [hrun]
    rfl
  refine ⟨h1, ?_, ?_⟩
  · rw [h2]
    exact assocGet_assocSet_same _ _ _
  · rw [h2]
    apply execute_not_executed_error
    intro tx2 htx2
    dsimp only at htx2
    rw [assocGet_assocSet_same] at htx2
    injection htx2 with h3
    rw [← h3]

/-- C1 witness: at the two-of-three quorum state `stA`, owner 3's execute
with a failing transfer returns `TokenTransferFailed`, leaves transaction 1
unexecuted, and a retry by owner 2 is not rejected with
`TransactionExecuted`. -/
theorem C1_witness :
    (execute_transaction stA 3 1 false).1 = .error .TokenTransferFailed ∧
    assocGet (execute_transaction stA 3 1 false).2.1.txs 1 =
      some ⟨10, 5, 7, 0, false, 2, 1⟩ ∧
    (execute_transaction (execute_transaction stA 3 1 false).2.1
        2 1 true).1 ≠ .error .TransactionExecuted :=
  C1_transfer_failure_rollback_retryable stA 3 1 ⟨[1, 2, 3], 2, 1⟩
    ⟨10, 5, 7, 0, false, 2, 1⟩ 2 true (by decide) (by decide) (by decide)
    (by decide) (by decide)

/-- C2 counterexample: at the persisted state `stT`, where `executed = true`
is already stored and the transfer is in flight, a reentrant
`approve_transaction` by caller 99 — not a member of the owner set — fails
with `Unauthorized`, not with `TransactionExecuted`; so not every reentrant
call on the same id fails with `TransactionExecuted`. -/
theorem C2_counterexample_nonowner_reentrant :
    (execute_transaction stA 3 1 true).2.2 = some stT ∧
    (approve_transaction stT 99 1).1 = .error .Unauthorized ∧
    ¬ (approve_transaction stT 99 1).1 = .error .TransactionExecuted := by
  decide

/-- C2 (amended): during `execute_transaction`, the stored transaction's
`executed` flag is set to `true` and persisted before the external transfer
primitive is invoked, so any reentrant `approve_transaction` or
`execute_transaction` call on the same id made while the transfer is in
flight is rejected without touching the state — with `TransactionExecuted`
when the reentrant caller passes the owner check, and with `Unauthorized`
otherwise — and never double-spends. -/
theorem C2_executed_persisted_before_transfer (st : StoreState)
    (caller : Address) (id : Nat) (transferOk : Bool) (stT2 : StoreState)
    (c2 : Address) (ok2 : Bool)
    (hT : (execute_transaction st caller id transferOk).2.2 = some stT2) :
    (∃ tx, assocGet stT2.txs id = some tx ∧ tx.executed = true) ∧
    approve_transaction stT2 c2 id =
      (.error (if verify_owner stT2 c2 = .ok () then .TransactionExecuted
               else .Unauthorized), stT2) ∧
    execute_transaction stT2 c2 id ok2 =
      (.error (if verify_owner stT2 c2 = .ok () then .TransactionExecuted
               else .Unauthorized), stT2, none) := by
  obtain ⟨tx, htx, _, hstT⟩ :=
    execute_transfer_state st caller id transferOk stT2 hT
  have htxT : assocGet stT2.txs id = some { tx with executed := true } := by
    rw [hstT]
    exact assocGet_assocSet_same _ _ _
  obtain ⟨ha, he⟩ := reentrant_calls_blocked stT2 c2 id ok2 _ htxT rfl
  exact ⟨⟨_, htxT, rfl⟩, ha, he⟩

/-- C2 witness: while owner 3's execute of transaction 1 is mid-transfer,
owner 2's reentrant approve and execute are both rejected with
`TransactionExecuted` and leave the state unchanged. -/
theorem C2_witness :
    (∃ tx, assocGet stT.txs 1 = some tx ∧ tx.executed = true) ∧
    approve_transaction stT 2 1 =
      (.error (if verify_owner stT 2 = .ok () then .TransactionExecuted
               else .Unauthorized), stT) ∧
    execute_transaction stT 2 1 true =
      (.error (if verify_owner stT 2 = .ok () then .TransactionExecuted
               else .Unauthorized), stT, none) :=
  C2_executed_persisted_before_transfer stA 3 1 true stT 2 true (by decide)

/-- C3: in every state reachable through the contract's entry points, every
stored transaction has a stored approval set whose length equals the
transaction's `approvals` counter and whose entries are pairwise
distinct. -/
theorem C3_approval_set_invariant (st : StoreState) (hr : Reachable st)
    (id : Nat) (tx : Transaction)
    (htx : assocGet st.txs id = some tx) :
    ∃ s, assocGet st.appr id = some s ∧
      s.length = tx.approvals ∧ s.Nodup :=
  approvalInv_reachable st hr id tx htx

theorem reachable_stA : Reachable stA :=
  Reachable.step_approve stS 2 1
    (Reachable.step_submit stI 1 10 5 7 0
      (Reachable.step_init emptyState [1, 2, 3] 2 Reachable.empty))

/-- C3 witness: in the reachable state `stA`, transaction 1 carries
`approvals = 2` and its stored approval set matches in length and is
duplicate-free. -/
theorem C3_witness :
    ∃ s, assocGet stA.appr 1 = some s ∧
      s.length = (⟨10, 5, 7, 0, false, 2, 1⟩ : Transaction).approvals ∧
      s.Nodup :=
  C3_approval_set_invariant stA reachable_stA 1 ⟨10, 5, 7, 0, false, 2, 1⟩
    (by decide)

/-- C4 counterexample: with the transaction counter at `u32::MAX`, an
authenticated owner caller submitting a positive amount does not succeed:
the checked increment fails and the call returns `ArithmeticError` with the
state unchanged. -/
theorem C4_counterexample_counter_overflow :
    verify_owner stMax 1 = .ok () ∧ (0 : Int) < 5 ∧
    submit_transaction stMax 1 2 5 3 0 = (.error .ArithmeticError, stMax) := by
  decide

/-- C4 (amended): for every authenticated owner caller and `amount > 0`,
provided the transaction counter is below `u32::MAX` (so the checked
increment cannot overflow), `submit_transaction` succeeds; afterward the new
transaction has `approvals = 1` and `executed = false`, its approval set is
exactly `[caller]`, `transaction_count` has increased by exactly 1, and the
returned id equals the new `transaction_count`. -/
theorem C4_submit_success_postconditions (st : StoreState)
    (caller t : Address) (amount : Int) (token : Address) (d : Nat)
    (config : MultisigConfig)
    (hcfg : st.config = some config)
    (hown : config.owners.contains caller = true)
    (hamt : 0 < amount)
    (hcount : config.transaction_count < U32_MAX) :
    (submit_transaction st caller t amount token d).1 =
      .ok (config.transaction_count + 1) ∧
    assocGet (submit_transaction st caller t amount token d).2.txs
        (config.transaction_count + 1) =
      some ⟨t, amount, token, d, false, 1, caller⟩ ∧
    assocGet (submit_transaction st caller t amount token d).2.appr
        (config.transaction_count + 1) = some [caller] ∧
    (submit_transaction st caller t amount token d).2.config =
      some { config with
        transaction_count := config.transaction_count + 1 } := by
  have hrun :=
    submit_transaction_run st caller t amount token d config hcfg hown hamt hcount
  rw [hrun]
  exact ⟨rfl, assocGet_assocSet_same _ _ _, assocGet_assocSet_same _ _ _, rfl⟩

/-- C4 witness: owner 1 submitting to 20 for amount 9 in the fresh wallet
`stI` gets id 1, a record with one approval by owner 1, and the counter
bumped to 1. -/
theorem C4_witness :
    (submit_transaction stI 1 20 9 5 0).1 = .ok 1 ∧
    assocGet (submit_transaction stI 1 20 9 5 0).2.txs 1 =
      some ⟨20, 9, 5, 0, false, 1, 1⟩ ∧
    assocGet (submit_transaction stI 1 20 9 5 0).2.appr 1 = some [1] ∧
    (submit_transaction stI 1 20 9 5 0).2.config = some ⟨[1, 2, 3], 2, 1⟩ :=
  C4_submit_success_postconditions stI 1 20 9 5 0 ⟨[1, 2, 3], 2, 0⟩
    (by decide) (by decide) (by decide) (by decide)

/-- C5: for every owner caller and existing, not-yet-executed transaction
whose `approvals` counter is strictly below `required_approvals`,
`execute_transaction` fails with `InsufficientApprovals`, the state is
unchanged (so `executed` stays `false`), and the transfer primitive is
never invoked. -/
theorem C5_insufficient_approvals_rejected (st : StoreState)
    (caller : Address) (id : Nat) (ok : Bool) (config : MultisigConfig)
    (tx : Transaction)
    (hcfg : st.config = some config)
    (hown : config.owners.contains caller = true)
    (htx : assocGet st.txs id = some tx)
    (hexec : tx.executed = false)
    (hq : tx.approvals < config.required_approvals) :
    execute_transaction st caller id ok =
      (.error .InsufficientApprovals, st, none) := by
  have hv := verify_owner_ok hcfg hown
  simp [execute_transaction, hv, htx, hexec, get_config, hcfg, hq]

/-- C5 witness: in `stS` transaction 1 has a single approval against a
threshold of 2, so owner 1's execute fails with `InsufficientApprovals`,
changes nothing, and invokes no transfer. -/
theorem C5_witness :
    execute_transaction stS 1 1 true =
      (.error .InsufficientApprovals, stS, none) :=
  C5_insufficient_approvals_rejected stS 1 1 true ⟨[1, 2, 3], 2, 1⟩
    ⟨10, 5, 7, 0, false, 1, 1⟩ (by decide) (by decide) (by decide) (by decide)
    (by decide)

/-- C6 counterexample: in the initialized wallet `stI`, owner 1 querying
`get_approvals` for id 5 — for which no approval set is stored — fails with
`TransactionNotFound` rather than returning the empty sequence. -/
theorem C6_counterexample_missing_id_fails :
    get_approvals stI 1 5 = .error .TransactionNotFound ∧
    ¬ get_approvals stI 1 5 = .ok [] := by
  decide

/-- C6 (amended): `get_approvals` on a transaction id for which no approval
set is stored fails with `TransactionNotFound`; it is only the internal read
in `approve_transaction` that defaults an absent set to the empty
sequence. -/
theorem C6_get_approvals_missing_fails (st : StoreState) (caller : Address)
    (id : Nat)
    (hv : verify_owner st caller = .ok ())
    (habs : assocGet st.appr id = none) :
    get_approvals st caller id = .error .TransactionNotFound := by
  simp [get_approvals, hv, habs]

/-- C6 witness: instance of the amended claim at `stI`, owner 1, id 5. -/
theorem C6_witness :
    get_approvals stI 1 5 = .error .TransactionNotFound :=
  C6_get_approvals_missing_fails stI 1 5 (by decide) (by decide)

/-- C7: a caller that is not a member of the owner set receives
`Unauthorized` from `submit_transaction`, `approve_transaction`,
`execute_transaction`, `get_transaction` and `get_approvals` regardless of
the other arguments — the ids may be unknown or already executed — and the
state is unchanged. -/
theorem C7_non_owner_unauthorized (st : StoreState) (config : MultisigConfig)
    (caller t : Address) (amount : Int) (token : Address) (d : Nat)
    (id1 id2 id3 id4 : Nat) (ok : Bool)
    (hcfg : st.config = some config)
    (hown : config.owners.contains caller = false) :
    submit_transaction st caller t amount token d =
      (.error .Unauthorized, st) ∧
    approve_transaction st caller id1 = (.error .Unauthorized, st) ∧
    execute_transaction st caller id2 ok = (.error .Unauthorized, st, none) ∧
    get_transaction st caller id3 = .error .Unauthorized ∧
    get_approvals st caller id4 = .error .Unauthorized := by
  have hv := verify_owner_not_owner hcfg hown
  refine ⟨?_, ?_, ?_, ?_, ?_⟩ <;>
    simp [submit_transaction, approve_transaction, execute_transaction,
      get_transaction, get_approvals, hv]

/-- C7 witness: non-owner 99 is rejected with `Unauthorized` by all five
owner-gated operations at `stA`, including on the unknown id 42. -/
theorem C7_witness :
    submit_transaction stA 99 2 5 3 0 = (.error .Unauthorized, stA) ∧
    approve_transaction stA 99 1 = (.error .Unauthorized, stA) ∧
    execute_transaction stA 99 42 true = (.error .Unauthorized, stA, none) ∧
    get_transaction stA 99 1 = .error .Unauthorized ∧
    get_approvals stA 99 42 = .error .Unauthorized :=
  C7_non_owner_unauthorized stA ⟨[1, 2, 3], 2, 1⟩ 99 2 5 3 0 1 42 1 42 true
    (by decide) (by decide)

/-- C8: for every owner caller, `submit_transaction` with `amount ≤ 0`
fails with `InvalidAmount` and leaves the state unchanged: the counter is
not incremented and no transaction or approval-set record is created. -/
theorem C8_invalid_amount_rejected (st : StoreState) (caller t : Address)
    (amount : Int) (token : Address) (d : Nat)
    (hv : verify_owner st caller = .ok ())
    (hamt : amount ≤ 0) :
    submit_transaction st caller t amount token d =
      (.error .InvalidAmount, st) := by
  simp [submit_transaction, hv, validate_transaction_inputs, hamt]

/-- C8 witness: owner 1 submitting amount (-1) in `stI` fails with
`InvalidAmount` and changes nothing. -/
theorem C8_witness :
    submit_transaction stI 1 2 (-1) 3 0 = (.error .InvalidAmount, stI) :=
  C8_invalid_amount_rejected stI 1 2 (-1) 3 0 (by decide) (by decide)

/-- C9: for every owner caller already present in the stored approval set of
an existing, not-yet-executed transaction, `approve_transaction` fails with
`AlreadyApproved` and leaves the state — in particular the transaction's
`approvals` counter and its approval set — unchanged. -/
theorem C9_already_approved_rejected (st : StoreState) (caller : Address)
    (id : Nat) (tx : Transaction)
    (hv : verify_owner st caller = .ok ())
    (htx : assocGet st.txs id = some tx)
    (hexec : tx.executed = false)
    (hmem : ((assocGet st.appr id).getD []).contains caller = true) :
    approve_transaction st caller id = (.error .AlreadyApproved, st) := by
  have hmem2 : caller ∈ (assocGet st.appr id).getD [] := by simpa using hmem
  simp [approve_transaction, hv, htx, hexec, hmem2]

/-- C9 witness: the submitter, owner 1, auto-approved at submission, so
approving transaction 1 again in `stA` fails with `AlreadyApproved` and
changes nothing. -/
theorem C9_witness :
    approve_transaction stA 1 1 = (.error .AlreadyApproved, stA) :=
  C9_already_approved_rejected stA 1 1 ⟨10, 5, 7, 0, false, 2, 1⟩
    (by decide) (by decide) (by decide) (by decide)

/-- C10: `execute_transaction` does not require the caller to be among the
transaction's approvers: for every authenticated owner caller, if the
transaction exists, is not executed, and meets the quorum, execution
proceeds — the transfer is invoked on the state with `executed = true`
persisted, and the call returns the transfer's outcome — with no hypothesis
that the caller ever approved or submitted the transaction. -/
theorem C10_executor_need_not_have_approved (st : StoreState)
    (caller : Address) (id : Nat) (ok : Bool) (config : MultisigConfig)
    (tx : Transaction)
    (hcfg : st.config = some config)
    (hown : config.owners.contains caller = true)
    (htx : assocGet st.txs id = some tx)
    (hexec : tx.executed = false)
    (hq : ¬ tx.approvals < config.required_approvals) :
    (execute_transaction st caller id ok).2.2 =
      some { st with txs := assocSet st.txs id { tx with executed := true } } ∧
    (execute_transaction st caller id ok).1 =
      (if ok then .ok () else .error .TokenTransferFailed) := by
  have hrun :=
    execute_transaction_run st caller id ok config tx hcfg hown htx hexec hq
  rw [hrun]
  exact ⟨rfl, rfl⟩

/-- C10 witness: owner 3 never approved transaction 1 (its approval set is
`[1, 2]`), yet owner 3's execute at the quorum state `stA` proceeds and
succeeds. -/
theorem C10_witness :
    ((assocGet stA.appr 1).getD []).contains 3 = false ∧
    (execute_transaction stA 3 1 true).2.2 =
      some { stA with
        txs := assocSet stA.txs 1 ⟨10, 5, 7, 0, true, 2, 1⟩ } ∧
    (execute_transaction stA 3 1 true).1 = .ok () :=
  ⟨by decide,
   (C10_executor_need_not_have_approved stA 3 1 true ⟨[1, 2, 3], 2, 1⟩
      ⟨10, 5, 7, 0, false, 2, 1⟩ (by decide) (by decide) (by decide)
      (by decide) (by decide)).1,
   (C10_executor_need_not_have_approved stA 3 1 true ⟨[1, 2, 3], 2, 1⟩
      ⟨10, 5, 7, 0, false, 2, 1⟩ (by decide) (by decide) (by decide)
      (by decide) (by decide)).2⟩
